import Mathlib

/-!
Shallow embedding of `src/emu/riscv-tlb.h` from vandersonmr/custom-riscv-tracer:
the tagged TLB entry (`tagged_tlb_entry`) and the direct-mapped tagged TLB
(`tagged_tlb`) with its `flush`, `flush(asid)`, `lookup` and `insert` operations.

Machine integers (`UX`, the address type of the `PARAM` template argument) are
modelled as `Nat`; a value of `UX` is a natural number below `2 ^ xlen`.
Bitfield assignment truncates modulo the field width, exactly as C++ packed
bitfield initialization does.
-/

namespace RiscvTLB

/-- Compile-time parameters of the template instantiation.

Modelled from the spec: the constants `page_shift`, the `PARAM` members
`asid_bits` and `ppn_bits`, and the types `pdid_t` / `pma_t` are declared in
headers of the repository that are not under `src/` (only `riscv-tlb.h` is).
Per the spec: `page_shift` is the page-offset width (12 in the concrete
scenario); `asid_bits` and `ppn_bits` are type parameters; the protection
domain id has the implementation word size (so `pdid_t` is modelled as a
`UX`-width integer); `physical_memory_attribute` defaults to zero.
`xlen` is the bit width of `UX` (`sizeof(UX) << 3`); `shift` is
`ctz_pow2(tlb_size)`, i.e. the log2 of the (power-of-two) TLB capacity. -/
structure TLBParam where
  xlen : Nat
  asid_bits : Nat
  ppn_bits : Nat
  page_shift : Nat
  shift : Nat
deriving DecidableEq

/-- Source: `vpn_bits = (sizeof(UX) << 3) - page_shift`. -/
def vpn_bits (c : TLBParam) : Nat := c.xlen - c.page_shift

/-- Source: `pte_bits = page_shift`. -/
def pte_bits (c : TLBParam) : Nat := c.page_shift

/-- Source: `ppn_limit = (1ULL << ppn_bits) - 1`. -/
def ppn_limit (c : TLBParam) : Nat := 2 ^ c.ppn_bits - 1

/-- Source: `asid_limit = (1ULL << asid_bits) - 1`. -/
def asid_limit (c : TLBParam) : Nat := 2 ^ c.asid_bits - 1

/-- Source: `vpn_limit = (1ULL << vpn_bits) - 1`. -/
def vpn_limit (c : TLBParam) : Nat := 2 ^ vpn_bits c - 1

/-- Source: `size = tlb_size` with `shift = ctz_pow2(size)`; since `tlb_size`
is statically asserted to be a power of two, `size = 2 ^ shift`. -/
def tlb_size (c : TLBParam) : Nat := 2 ^ c.shift

/-- Source: `mask = (1ULL << shift) - 1`. -/
def mask (c : TLBParam) : Nat := 2 ^ c.shift - 1

/-- One TLB entry: `tagged_tlb_entry`.  The packed bitfields
`ppn : ppn_bits`, `asid : asid_bits`, `vpn : vpn_bits`, `pteb : pte_bits`
are modelled as naturals kept below their width by the constructors; `pdid`
is the (word-sized) protection domain id and `pma` the physical memory
attribute. -/
structure Entry where
  ppn : Nat
  asid : Nat
  vpn : Nat
  pteb : Nat
  pdid : Nat
  pma : Nat
deriving DecidableEq

/-- Default constructor `tagged_tlb_entry()`:
`ppn(ppn_limit), asid(asid_limit), vpn(vpn_limit), pteb(0), pdid(0), pma(0)`
— the sentinel. -/
def sentinel (c : TLBParam) : Entry :=
  { ppn := ppn_limit c, asid := asid_limit c, vpn := vpn_limit c
    pteb := 0, pdid := 0, pma := 0 }

/-- Parameterized constructor
`tagged_tlb_entry(UX pdid, UX asid, UX vpn, UX pteb, UX ppn)`:
each packed bitfield stores its argument truncated to the field width
(C++ bitfield initialization wraps modulo `2 ^ width`); `pdid` is stored in a
word-sized field (wraps modulo `2 ^ xlen`); `pma` is initialized to 0. -/
def mkEntry (c : TLBParam) (pdid asid vpn pteb ppn : Nat) : Entry :=
  { ppn := ppn % 2 ^ c.ppn_bits
    asid := asid % 2 ^ c.asid_bits
    vpn := vpn % 2 ^ vpn_bits c
    pteb := pteb % 2 ^ pte_bits c
    pdid := pdid % 2 ^ c.xlen
    pma := 0 }

/-- The TLB storage `tlb_entry_t tlb[size]`: a total map from array index to
entry. -/
def TLBState (c : TLBParam) : Type := Fin (tlb_size c) → Entry

/-- Constructor `tagged_tlb()` calls `flush()`, so every slot starts at the
sentinel. -/
def initState (c : TLBParam) : TLBState c := fun _ => sentinel c

/-- Source `flush()`: `for i in 0..size: tlb[i] = tlb_entry_t()`. -/
def flushAll (c : TLBParam) (_s : TLBState c) : TLBState c :=
  fun _ => sentinel c

/-- Source `flush(UX asid)`: for each slot, if `tlb[i].asid != asid` skip,
otherwise `tlb[i] = tlb_entry_t()`.  The stored `asid` bitfield is compared
(after integral promotion) against the full-width argument. -/
def flushAsid (c : TLBParam) (asid : Nat) (s : TLBState c) : TLBState c :=
  fun i => if (s i).asid = asid then sentinel c else s i

theorem land_mask_lt (c : TLBParam) (v : Nat) : v &&& mask c < tlb_size c :=
  Nat.and_lt_two_pow v (Nat.sub_lt (Nat.pos_pow_of_pos c.shift (by decide)) Nat.one_pos)

/-- The array index computed by both `lookup` and `insert`:
`vpn = va >> page_shift; i = vpn & mask`.  The result is below `size`
because `mask = 2 ^ shift - 1 < 2 ^ shift = size`. -/
def lookupIndex (c : TLBParam) (va : Nat) : Fin (tlb_size c) :=
  ⟨(va >>> c.page_shift) &&& mask c, land_mask_lt c (va >>> c.page_shift)⟩

/-- Source `lookup(UX pdid, UX asid, UX va)`:
`vpn = va >> page_shift; i = vpn & mask;
return tlb[i].pdid == pdid && tlb[i].asid == asid && tlb[i].vpn == vpn ?
tlb + i : nullptr`.  A returned pointer is modelled as `some` of the entry
value, `nullptr` as `none`. -/
def lookup (c : TLBParam) (pdid asid va : Nat) (s : TLBState c) : Option Entry :=
  let vpn := va >>> c.page_shift
  let i := lookupIndex c va
  if (s i).pdid = pdid ∧ (s i).asid = asid ∧ (s i).vpn = vpn then
    some (s i)
  else
    none

/-- State-passing form of `lookup`, modelling the member call's effect on the
`tlb` array: the body of `lookup` reads `tlb[i]` and writes no field, so the
array component after the call is the array before it. -/
def lookupM (c : TLBParam) (pdid asid va : Nat) (s : TLBState c) :
    Option Entry × TLBState c :=
  (lookup c pdid asid va s, s)

/-- Source `insert(UX pdid, UX asid, UX va, UX pteb, UX ppn)`:
`vpn = va >> page_shift; i = vpn & mask;
tlb[i] = tlb_entry_t(pdid, asid, vpn, pteb, ppn)` — an unconditional
overwrite of the one slot at the computed index. -/
def insert (c : TLBParam) (pdid asid va pteb ppn : Nat) (s : TLBState c) :
    TLBState c :=
  Function.update s (lookupIndex c va)
    (mkEntry c pdid asid (va >>> c.page_shift) pteb ppn)

/-- The concrete configuration of the spec's scenario: 32-bit addresses
(`param_rv32` with `asid_bits = 10`, `ppn_bits = 22`, satisfying the
`asid_bits + ppn_bits == 32` static assertion), `page_shift = 12`,
capacity `4 = 2 ^ 2` (so `mask = 0b11`). -/
def rv32c : TLBParam :=
  { xlen := 32, asid_bits := 10, ppn_bits := 22, page_shift := 12, shift := 2 }

/-- States reachable from the freshly constructed TLB by any sequence of
`insert`, `flush()` and `flush(asid)` calls, with every argument in the
domain of its C++ `UX` parameter type. -/
inductive Reachable (c : TLBParam) : TLBState c → Prop where
  | init : Reachable c (initState c)
  | insert_step (pdid asid va pteb ppn : Nat) (s : TLBState c)
      (hpdid : pdid < 2 ^ c.xlen) (hasid : asid < 2 ^ c.xlen)
      (hva : va < 2 ^ c.xlen) (hpteb : pteb < 2 ^ c.xlen)
      (hppn : ppn < 2 ^ c.xlen) (hs : Reachable c s) :
      Reachable c (insert c pdid asid va pteb ppn s)
  | flush_step (s : TLBState c) (hs : Reachable c s) :
      Reachable c (flushAll c s)
  | flush_asid_step (asid : Nat) (s : TLBState c)
      (hasid : asid < 2 ^ c.xlen) (hs : Reachable c s) :
      Reachable c (flushAsid c asid s)

theorem lookup_eq (c : TLBParam) (pdid asid va : Nat) (s : TLBState c) :
    lookup c pdid asid va s =
      if (s (lookupIndex c va)).pdid = pdid ∧ (s (lookupIndex c va)).asid = asid ∧
          (s (lookupIndex c va)).vpn = va >>> c.page_shift then
        some (s (lookupIndex c va))
      else
        none := rfl

theorem shiftRight_lt_vpn (c : TLBParam) (hps : c.page_shift ≤ c.xlen)
    {va : Nat} (hva : va < 2 ^ c.xlen) :
    va >>> c.page_shift < 2 ^ vpn_bits c := by
  rw [Nat.shiftRight_eq_div_pow, vpn_bits]
  rw [Nat.div_lt_iff_lt_mul (Nat.pos_pow_of_pos _ (by decide))]
  rw [← pow_add, Nat.sub_add_cancel hps]
  exact hva

theorem mkEntry_eq_of_lt (c : TLBParam) {pdid asid vpn pteb ppn : Nat}
    (hpdid : pdid < 2 ^ c.xlen) (hasid : asid < 2 ^ c.asid_bits)
    (hvpn : vpn < 2 ^ vpn_bits c) (hpteb : pteb < 2 ^ pte_bits c)
    (hppn : ppn < 2 ^ c.ppn_bits) :
    mkEntry c pdid asid vpn pteb ppn =
      { ppn := ppn, asid := asid, vpn := vpn, pteb := pteb, pdid := pdid, pma := 0 } := by
  simp only [mkEntry, Nat.mod_eq_of_lt hpdid, Nat.mod_eq_of_lt hasid,
    Nat.mod_eq_of_lt hvpn, Nat.mod_eq_of_lt hpteb, Nat.mod_eq_of_lt hppn]

theorem lookup_sentinel_none (c : TLBParam) (pdid asid va : Nat) (s : TLBState c)
    (hsent : s (lookupIndex c va) = sentinel c)
    (hkey : ¬(pdid = 0 ∧ asid = asid_limit c ∧ va >>> c.page_shift = vpn_limit c)) :
    lookup c pdid asid va s = none := by
  rw [lookup_eq, hsent, if_neg]
  intro ⟨h1, h2, h3⟩
  exact hkey ⟨h1.symm, h2.symm, h3.symm⟩

/-- C1.  The claim is FALSE as universally quantified: an `asid` exceeding the
`asid_bits` field width is truncated on insert, so the full-width comparison
in `lookup` misses.  Concrete refutation in `param_rv32` (asid_bits = 10):
`insert(pdid=0, asid=1024, va=0, pteb=0, ppn=0)` stores `asid = 0`, and the
immediately following `lookup(0, 1024, 0)` returns `nullptr`. -/
theorem C1_counterexample :
    lookup rv32c 0 1024 0
      (insert rv32c 0 1024 0 0 0 (initState rv32c)) = none := by decide

/-- C1 (amended).  After `insert(pdid, asid, va, pteb, ppn)` with every
argument within the range of the field that stores it (`pdid` and `va` within
the `UX` word, `asid < 2 ^ asid_bits`, `pteb < 2 ^ page_shift`,
`ppn < 2 ^ ppn_bits`), `lookup(pdid, asid, va)` hits and the returned entry
has `ppn` and `pteb` equal to the inserted values. -/
theorem C1_insert_lookup_roundtrip (c : TLBParam) (pdid asid va pteb ppn : Nat)
    (s : TLBState c) (hps : c.page_shift ≤ c.xlen)
    (hpdid : pdid < 2 ^ c.xlen) (hasid : asid < 2 ^ c.asid_bits)
    (hva : va < 2 ^ c.xlen) (hpteb : pteb < 2 ^ pte_bits c)
    (hppn : ppn < 2 ^ c.ppn_bits) :
    ∃ e, lookup c pdid asid va (insert c pdid asid va pteb ppn s) = some e ∧
      e.ppn = ppn ∧ e.pteb = pteb := by
  have hvpn := shiftRight_lt_vpn c hps hva
  have hupd : (insert c pdid asid va pteb ppn s) (lookupIndex c va) =
      { ppn := ppn, asid := asid, vpn := va >>> c.page_shift, pteb := pteb,
        pdid := pdid, pma := 0 } := by
    rw [insert, Function.update_same, mkEntry_eq_of_lt c hpdid hasid hvpn hpteb hppn]
  refine ⟨Entry.mk ppn asid (va >>> c.page_shift) pteb pdid 0, ?_, rfl, rfl⟩
  rw [lookup_eq, hupd, if_pos ⟨rfl, rfl, rfl⟩]

/-- Witness for C1 (amended) at the concrete scenario configuration. -/
theorem C1_insert_lookup_roundtrip_witness :
    ∃ e, lookup rv32c 1 7 0x1000 (insert rv32c 1 7 0x1000 0x7 0x55 (initState rv32c)) =
      some e ∧ e.ppn = 0x55 ∧ e.pteb = 0x7 :=
  C1_insert_lookup_roundtrip rv32c 1 7 0x1000 0x7 0x55 (initState rv32c)
    (by decide) (by decide) (by decide) (by decide) (by decide) (by decide)

/-- C2.  The claim is FALSE: the sentinel CAN be returned as a hit.  In
`param_rv32` (asid_bits = 10, page_shift = 12, so vpn_bits = 20), on the
freshly constructed TLB the entry at the index of `va = 0xFFFFFFFF` is the
sentinel, yet `lookup(pdid = 0, asid = 1023, va = 0xFFFFFFFF)` matches all
three tag comparisons (`pdid = 0`, `asid = asid_limit`, `vpn = vpn_limit`)
and returns the sentinel entry. -/
theorem C2_counterexample :
    (initState rv32c) (lookupIndex rv32c 0xFFFFFFFF) = sentinel rv32c ∧
    lookup rv32c 0 1023 0xFFFFFFFF (initState rv32c) = some (sentinel rv32c) := by
  decide

/-- C2 (amended).  If the entry at the index of `va` is the sentinel, then
`lookup(pdid, asid, va)` misses, PROVIDED the lookup key is not itself the
sentinel key (`pdid = 0`, `asid = 2 ^ asid_bits - 1`, and
`va >> page_shift = 2 ^ vpn_bits - 1`). -/
theorem C2_sentinel_not_hit (c : TLBParam) (pdid asid va : Nat) (s : TLBState c)
    (hsent : s (lookupIndex c va) = sentinel c)
    (hkey : ¬(pdid = 0 ∧ asid = asid_limit c ∧ va >>> c.page_shift = vpn_limit c)) :
    lookup c pdid asid va s = none :=
  lookup_sentinel_none c pdid asid va s hsent hkey

/-- Witness for C2 (amended): an ordinary key misses on the fresh TLB. -/
theorem C2_sentinel_not_hit_witness :
    lookup rv32c 1 7 0x1000 (initState rv32c) = none :=
  C2_sentinel_not_hit rv32c 1 7 0x1000 (initState rv32c) rfl (by decide)

/-- C3.  The claim is FALSE: a lookup that hit before `flush()` can still hit
after it.  In `param_rv32`, insert the mapping with the sentinel-shaped key
(`pdid = 0`, `asid = 1023 = asid_limit`, `va = 0xFFFFFFFF`, so
`vpn = vpn_limit`): the lookup hits the inserted entry before the flush, and
after `flush()` the same lookup hits the sentinel. -/
theorem C3_counterexample :
    lookup rv32c 0 1023 0xFFFFFFFF
        (insert rv32c 0 1023 0xFFFFFFFF 5 7 (initState rv32c)) =
      some { ppn := 7, asid := 1023, vpn := 0xFFFFF, pteb := 5, pdid := 0, pma := 0 } ∧
    lookup rv32c 0 1023 0xFFFFFFFF
        (flushAll rv32c (insert rv32c 0 1023 0xFFFFFFFF 5 7 (initState rv32c))) =
      some (sentinel rv32c) := by
  decide

/-- C3 (amended).  If `lookup(pdid, asid, va)` hits in state `s`, then after
`flush()` the same lookup misses, PROVIDED the key is not the sentinel key
(`pdid = 0`, `asid = 2 ^ asid_bits - 1`, `va >> page_shift = 2 ^ vpn_bits - 1`). -/
theorem C3_flush_all_miss (c : TLBParam) (pdid asid va : Nat) (s : TLBState c)
    (hhit : lookup c pdid asid va s ≠ none)
    (hkey : ¬(pdid = 0 ∧ asid = asid_limit c ∧ va >>> c.page_shift = vpn_limit c)) :
    lookup c pdid asid va (flushAll c s) = none :=
  lookup_sentinel_none c pdid asid va (flushAll c s) rfl hkey

/-- Witness for C3 (amended): a hit at an ordinary key misses after flush. -/
theorem C3_flush_all_miss_witness :
    lookup rv32c 1 7 0x1000
      (flushAll rv32c (insert rv32c 1 7 0x1000 0x7 0x55 (initState rv32c))) = none :=
  C3_flush_all_miss rv32c 1 7 0x1000
    (insert rv32c 1 7 0x1000 0x7 0x55 (initState rv32c)) (by decide) (by decide)

/-- C4.  The parenthetical consequence "(so lookups for such previously
inserted mappings miss)" is FALSE: insert the mapping with the sentinel-shaped
key (`pdid = 0`, `asid = 1023 = asid_limit`, `va = 0xFFFFFFFF`, so
`vpn = vpn_limit`) in `param_rv32`; its stored `asid` equals the flushed
`asid_x = 1023`, so `flush(1023)` does reset that entry to the sentinel, yet
the lookup for the flushed mapping still hits (it hits the sentinel). -/
theorem C4_counterexample :
    ((insert rv32c 0 1023 0xFFFFFFFF 5 7 (initState rv32c))
        (lookupIndex rv32c 0xFFFFFFFF)).asid = 1023 ∧
    flushAsid rv32c 1023 (insert rv32c 0 1023 0xFFFFFFFF 5 7 (initState rv32c))
        (lookupIndex rv32c 0xFFFFFFFF) = sentinel rv32c ∧
    lookup rv32c 0 1023 0xFFFFFFFF
        (flushAsid rv32c 1023 (insert rv32c 0 1023 0xFFFFFFFF 5 7 (initState rv32c))) =
      some (sentinel rv32c) := by
  decide

/-- C4 (amended).  After `flush(asid_x)`: every entry whose stored
`address_space_id` equals `asid_x` is reset to the sentinel and every other
entry is left bit-for-bit unchanged; a previously hitting lookup whose key
asid is `asid_x` misses afterwards PROVIDED the key is not the sentinel key;
and a previously hitting lookup whose key asid differs from `asid_x` still
hits with the same entry. -/
theorem C4_flush_asid (c : TLBParam) (asid_x : Nat) (s : TLBState c) :
    (∀ i, ((s i).asid = asid_x → flushAsid c asid_x s i = sentinel c) ∧
        ((s i).asid ≠ asid_x → flushAsid c asid_x s i = s i)) ∧
    (∀ pdid asid va, lookup c pdid asid va s ≠ none → asid = asid_x →
        ¬(pdid = 0 ∧ asid = asid_limit c ∧ va >>> c.page_shift = vpn_limit c) →
        lookup c pdid asid va (flushAsid c asid_x s) = none) ∧
    (∀ pdid asid va e, asid ≠ asid_x → lookup c pdid asid va s = some e →
        lookup c pdid asid va (flushAsid c asid_x s) = some e) := by
  refine ⟨fun i => ⟨fun h => if_pos h, fun h => if_neg h⟩, ?_, ?_⟩
  · intro pdid asid va hhit heq hkey
    rw [lookup_eq] at hhit
    by_cases hcond : (s (lookupIndex c va)).pdid = pdid ∧
        (s (lookupIndex c va)).asid = asid ∧
        (s (lookupIndex c va)).vpn = va >>> c.page_shift
    · apply lookup_sentinel_none c pdid asid va _ _ hkey
      show (if (s (lookupIndex c va)).asid = asid_x then sentinel c
          else s (lookupIndex c va)) = sentinel c
      rw [if_pos (hcond.2.1.trans heq)]
    · rw [if_neg hcond] at hhit
      exact absurd rfl hhit
  · intro pdid asid va e hne hhit
    rw [lookup_eq] at hhit
    by_cases hcond : (s (lookupIndex c va)).pdid = pdid ∧
        (s (lookupIndex c va)).asid = asid ∧
        (s (lookupIndex c va)).vpn = va >>> c.page_shift
    · rw [if_pos hcond] at hhit
      have hunch : flushAsid c asid_x s (lookupIndex c va) = s (lookupIndex c va) := by
        show (if (s (lookupIndex c va)).asid = asid_x then sentinel c
            else s (lookupIndex c va)) = s (lookupIndex c va)
        rw [if_neg (hcond.2.1 ▸ hne)]
      rw [lookup_eq, hunch, if_pos hcond]
      exact hhit
    · rw [if_neg hcond] at hhit
      exact absurd hhit (by simp)

/-- Witness for C4 (amended): an entry tagged with the flushed asid is reset
and its (ordinary) key misses afterwards. -/
theorem C4_flush_asid_witness :
    flushAsid rv32c 7 (insert rv32c 1 7 0x1000 0x7 0x55 (initState rv32c))
        (lookupIndex rv32c 0x1000) = sentinel rv32c ∧
    lookup rv32c 1 7 0x1000
      (flushAsid rv32c 7 (insert rv32c 1 7 0x1000 0x7 0x55 (initState rv32c))) = none := by
  constructor
  · exact ((C4_flush_asid rv32c 7
      (insert rv32c 1 7 0x1000 0x7 0x55 (initState rv32c))).1
        (lookupIndex rv32c 0x1000)).1 (by decide)
  · exact (C4_flush_asid rv32c 7
      (insert rv32c 1 7 0x1000 0x7 0x55 (initState rv32c))).2.1 1 7 0x1000
        (by decide) rfl (by decide)

/-- C5.  Two virtual addresses with different virtual page numbers but the
same direct-mapped index: inserting for `va2` after `va1` overwrites the slot,
so a subsequent lookup for `va1` (under any pdid/asid) misses. -/
theorem C5_evict_overwrite (c : TLBParam) (hps : c.page_shift ≤ c.xlen)
    (pdid1 asid1 pteb1 ppn1 pdid2 asid2 pteb2 ppn2 pdid asid va1 va2 : Nat)
    (s : TLBState c)
    (hva1 : va1 < 2 ^ c.xlen) (hva2 : va2 < 2 ^ c.xlen)
    (hvpn : va1 >>> c.page_shift ≠ va2 >>> c.page_shift)
    (hidx : (va1 >>> c.page_shift) &&& mask c = (va2 >>> c.page_shift) &&& mask c) :
    lookup c pdid asid va1
      (insert c pdid2 asid2 va2 pteb2 ppn2
        (insert c pdid1 asid1 va1 pteb1 ppn1 s)) = none := by
  have hieq : lookupIndex c va1 = lookupIndex c va2 := Fin.eq_of_val_eq hidx
  have hvpn2 : va2 >>> c.page_shift < 2 ^ vpn_bits c := shiftRight_lt_vpn c hps hva2
  have hupd : (insert c pdid2 asid2 va2 pteb2 ppn2
      (insert c pdid1 asid1 va1 pteb1 ppn1 s)) (lookupIndex c va2) =
      mkEntry c pdid2 asid2 (va2 >>> c.page_shift) pteb2 ppn2 :=
    Function.update_same _ _ _
  have hne : ¬((mkEntry c pdid2 asid2 (va2 >>> c.page_shift) pteb2 ppn2).pdid = pdid ∧
      (mkEntry c pdid2 asid2 (va2 >>> c.page_shift) pteb2 ppn2).asid = asid ∧
      (mkEntry c pdid2 asid2 (va2 >>> c.page_shift) pteb2 ppn2).vpn =
        va1 >>> c.page_shift) := by
    intro h
    have h3 : (va2 >>> c.page_shift) % 2 ^ vpn_bits c = va1 >>> c.page_shift := h.2.2
    rw [Nat.mod_eq_of_lt hvpn2] at h3
    exact hvpn h3.symm
  rw [lookup_eq, hieq, hupd, if_neg hne]

/-- Witness for C5 at the spec's concrete scenario (vpn 1 and vpn 5 share
index 1 when the capacity is 4). -/
theorem C5_evict_overwrite_witness :
    lookup rv32c 1 7 0x1000
      (insert rv32c 1 7 0x5000 0x3 0x99
        (insert rv32c 1 7 0x1000 0x7 0x55 (initState rv32c))) = none :=
  C5_evict_overwrite rv32c (by decide) 1 7 0x7 0x55 1 7 0x3 0x99 1 7 0x1000 0x5000
    (initState rv32c) (by decide) (by decide) (by decide) (by decide)

/-- C6.  Direct-mapped placement invariant: in every state reachable from
construction by insert/flush/flush(asid), every non-sentinel entry at index
`i` has `vpn & mask = i`. -/
theorem C6_placement_invariant (c : TLBParam) (hps : c.page_shift ≤ c.xlen)
    (s : TLBState c) (hr : Reachable c s) :
    ∀ i : Fin (tlb_size c), s i ≠ sentinel c → (s i).vpn &&& mask c = i.val := by
  induction hr with
  | init =>
      intro i hns
      exact absurd rfl hns
  | insert_step pdid asid va pteb ppn s hpdid hasid hva hpteb hppn hs ih =>
      intro i hns
      by_cases hi : i = lookupIndex c va
      · subst hi
        have hupd : insert c pdid asid va pteb ppn s (lookupIndex c va) =
            mkEntry c pdid asid (va >>> c.page_shift) pteb ppn :=
          Function.update_same _ _ _
        rw [hupd]
        have hvpn : (mkEntry c pdid asid (va >>> c.page_shift) pteb ppn).vpn =
            va >>> c.page_shift :=
          Nat.mod_eq_of_lt (shiftRight_lt_vpn c hps hva)
        rw [hvpn]
        rfl
      · have hupd : insert c pdid asid va pteb ppn s i = s i :=
          Function.update_noteq hi _ _
        rw [hupd] at hns ⊢
        exact ih i hns
  | flush_step s hs ih =>
      intro i hns
      exact absurd rfl hns
  | flush_asid_step asid s hasid hs ih =>
      intro i hns
      by_cases hcond : (s i).asid = asid
      · exact absurd (if_pos hcond) hns
      · have hupd : flushAsid c asid s i = s i := if_neg hcond
        rw [hupd] at hns ⊢
        exact ih i hns

/-- Witness for C6: one insert from the fresh TLB puts vpn 1 at index 1. -/
theorem C6_placement_invariant_witness :
    ((insert rv32c 1 7 0x1000 0x7 0x55 (initState rv32c))
        (lookupIndex rv32c 0x1000)).vpn &&& mask rv32c =
      (lookupIndex rv32c 0x1000).val :=
  C6_placement_invariant rv32c (by decide)
    (insert rv32c 1 7 0x1000 0x7 0x55 (initState rv32c))
    (Reachable.insert_step 1 7 0x1000 0x7 0x55 (initState rv32c)
      (by decide) (by decide) (by decide) (by decide) (by decide) Reachable.init)
    (lookupIndex rv32c 0x1000) (by decide)

/-- C7.  The parameterized entry constructor is total and wraps each packed
field modulo its width (`asid_bits`, `vpn_bits`, `page_shift`, `ppn_bits`),
with the physical memory attribute initialized to zero. -/
theorem C7_entry_construction (c : TLBParam) (pdid asid vpn pteb ppn : Nat) :
    (mkEntry c pdid asid vpn pteb ppn).asid = asid % 2 ^ c.asid_bits ∧
    (mkEntry c pdid asid vpn pteb ppn).vpn = vpn % 2 ^ vpn_bits c ∧
    (mkEntry c pdid asid vpn pteb ppn).pteb = pteb % 2 ^ c.page_shift ∧
    (mkEntry c pdid asid vpn pteb ppn).ppn = ppn % 2 ^ c.ppn_bits ∧
    (mkEntry c pdid asid vpn pteb ppn).pma = 0 :=
  ⟨rfl, rfl, rfl, rfl, rfl⟩

/-- C8.  The spec's concrete scenario: capacity 4, page_shift 12.  Insert
`(1, 7, 0x1000, 0x7, 0x55)` → vpn 1 at index 1, lookup hits with ppn 0x55;
then insert `(1, 7, 0x5000, 0x3, 0x99)` → vpn 5 at the same index 1, after
which the first lookup misses and the second hits with ppn 0x99. -/
theorem C8_concrete_scenario :
    (lookupIndex rv32c 0x1000).val = 1 ∧
    ((insert rv32c 1 7 0x1000 0x7 0x55 (initState rv32c))
        (lookupIndex rv32c 0x1000)).vpn = 1 ∧
    lookup rv32c 1 7 0x1000 (insert rv32c 1 7 0x1000 0x7 0x55 (initState rv32c)) =
      some (Entry.mk 0x55 7 1 0x7 1 0) ∧
    (lookupIndex rv32c 0x5000).val = 1 ∧
    ((insert rv32c 1 7 0x5000 0x3 0x99
        (insert rv32c 1 7 0x1000 0x7 0x55 (initState rv32c)))
        (lookupIndex rv32c 0x5000)).vpn = 5 ∧
    lookup rv32c 1 7 0x1000
      (insert rv32c 1 7 0x5000 0x3 0x99
        (insert rv32c 1 7 0x1000 0x7 0x55 (initState rv32c))) = none ∧
    lookup rv32c 1 7 0x5000
      (insert rv32c 1 7 0x5000 0x3 0x99
        (insert rv32c 1 7 0x1000 0x7 0x55 (initState rv32c))) =
      some (Entry.mk 0x99 7 5 0x3 1 0) := by
  decide

/-- C9.  Lookup is a pure query: the state after the member call is the state
before it, entry by entry. -/
theorem C9_lookup_is_pure (c : TLBParam) (pdid asid va : Nat) (s : TLBState c)
    (j : Fin (tlb_size c)) :
    (lookupM c pdid asid va s).2 j = s j := rfl

/-- C10.  Insert modifies only the slot at the computed index; every other
slot is bit-for-bit unchanged, and the overwritten slot's physical memory
attribute is reset to zero. -/
theorem C10_insert_frame (c : TLBParam) (pdid asid va pteb ppn : Nat)
    (s : TLBState c) :
    (∀ j : Fin (tlb_size c), j ≠ lookupIndex c va →
        insert c pdid asid va pteb ppn s j = s j) ∧
    (insert c pdid asid va pteb ppn s (lookupIndex c va)).pma = 0 := by
  refine ⟨fun j hj => Function.update_noteq hj _ _, ?_⟩
  have hupd : insert c pdid asid va pteb ppn s (lookupIndex c va) =
      mkEntry c pdid asid (va >>> c.page_shift) pteb ppn :=
    Function.update_same _ _ _
  rw [hupd]
  rfl

/-- Witness for C10: index 0 is untouched by an insert that targets index 1. -/
theorem C10_insert_frame_witness :
    insert rv32c 1 7 0x1000 0x7 0x55 (initState rv32c) ⟨0, by decide⟩ =
      initState rv32c ⟨0, by decide⟩ ∧
    (insert rv32c 1 7 0x1000 0x7 0x55 (initState rv32c)
        (lookupIndex rv32c 0x1000)).pma = 0 := by
  constructor
  · exact (C10_insert_frame rv32c 1 7 0x1000 0x7 0x55 (initState rv32c)).1
      ⟨0, by decide⟩ (by decide)
  · exact (C10_insert_frame rv32c 1 7 0x1000 0x7 0x55 (initState rv32c)).2

end RiscvTLB
